import Mathlib

/-!
Verification of the calibration / BEV-grid / class-registry configuration
subsystem of Complex-YOLOv4-Pytorch (`src/config/config.py`).

The embedding below translates the configuration data set up by
`parse_configs` into Lean: the class registry (`class_list`,
`CLASS_NAME_TO_ID`, `colors`), the BEV boundaries and grid dimensions
(`boundary`, `boundary_back`, `BEV_WIDTH`, `BEV_HEIGHT`, `DISCRETIZATION`),
and the calibration matrices (`Tr_velo_to_cam`, `R0`, `P2`) together with
their derived inverses.  Decimal literals are embedded exactly as rational
numbers.
-/

namespace ComplexYOLO

/-- The canonical class names, `configs.class_list`. -/
def class_list : List String := ["Car", "Pedestrian", "Cyclist"]

/-- The alias name-to-ID mapping, `configs.CLASS_NAME_TO_ID`, as an
association list in the source's dictionary order. -/
def CLASS_NAME_TO_ID : List (String × Nat) :=
  [("Car", 0), ("Pedestrian", 1), ("Cyclist", 2), ("Van", 0), ("Person_sitting", 1)]

/-- The display colors, `configs.colors`, one 3-component triple per class ID. -/
def colors : List (List Nat) := [[0, 255, 255], [0, 0, 255], [255, 0, 0]]

/-- Modelled from the spec: `idForName(name) -> Option<ClassId>` is the alias
lookup in the name-to-ID mapping; unknown names return `none`.  The mapping
itself is `CLASS_NAME_TO_ID` from the source; the lookup operation lives in
callers outside the embedded file. -/
def idForName (name : String) : Option Nat :=
  CLASS_NAME_TO_ID.lookup name

/-- Modelled from the spec: `colorForId(id) -> Color` is the indexed lookup in
the color list; an out-of-range ID is a caller error, rendered here as `none`. -/
def colorForId (i : Nat) : Option (List Nat) :=
  colors.get? i

/-- Modelled from the spec: color lookup for a class name, the composition of
`idForName` with `colorForId` used by visualization callers. -/
def colorForName (name : String) : Option (List Nat) :=
  (idForName name).bind colorForId

/-- A BEV point-cloud boundary record: six scalars as in the source dicts. -/
structure Boundary where
  minX : ℚ
  maxX : ℚ
  minY : ℚ
  maxY : ℚ
  minZ : ℚ
  maxZ : ℚ

/-- Front side (of vehicle) point cloud boundary for BEV, `configs.boundary`. -/
def boundary : Boundary :=
  ⟨0, 50, -25, 25, -2.73, 1.27⟩

/-- Back side (of vehicle) point cloud boundary for BEV, `configs.boundary_back`. -/
def boundary_back : Boundary :=
  ⟨-50, 0, -25, 25, -2.73, 1.27⟩

/-- `configs.BEV_WIDTH` (grid cells across the y axis, -25m to 25m). -/
def BEV_WIDTH : Nat := 608

/-- `configs.BEV_HEIGHT` (grid cells across the x axis, 0m to 50m). -/
def BEV_HEIGHT : Nat := 608

/-- `configs.DISCRETIZATION = (boundary["maxX"] - boundary["minX"]) / BEV_HEIGHT`. -/
def DISCRETIZATION : ℚ :=
  (boundary.maxX - boundary.minX) / (BEV_HEIGHT : ℚ)

/-- `configs.Tr_velo_to_cam`, the 4x4 homogeneous LiDAR-to-camera transform,
entry for entry from the source's `np.array` literal. -/
def Tr_velo_to_cam : Matrix (Fin 4) (Fin 4) ℚ :=
  !![7.49916597e-03, -9.99971248e-01, -8.65110297e-04, -6.71807577e-03;
     1.18652889e-02, 9.54520517e-04, -9.99910318e-01, -7.33152811e-02;
     9.99882833e-01, 7.49141178e-03, 1.18719929e-02, -2.78557062e-01;
     0, 0, 0, 1]

/-- `configs.R0`, the 4x4 rectification matrix, entry for entry from the
source's `np.array` literal. -/
def R0 : Matrix (Fin 4) (Fin 4) ℚ :=
  !![0.99992475, 0.00975976, -0.00734152, 0;
     -0.0097913, 0.99994262, -0.00430371, 0;
     0.00729911, 0.0043753, 0.99996319, 0;
     0, 0, 0, 1]

/-- `configs.P2`, the camera projection matrix, entry for entry from the
source's `np.array` literal: the source writes it with four rows of four
entries each, the last row all zeros. -/
def P2 : Matrix (Fin 4) (Fin 4) ℚ :=
  !![719.787081, 0, 608.463003, 44.9538775;
     0, 719.787081, 174.545111, 0.1066855;
     0, 0, 1, 3.0106472e-03;
     0, 0, 0, 0]

/-- The row-lists of `configs.Tr_velo_to_cam` exactly as the nested Python
list literal passed to `np.array` in the source. -/
def Tr_velo_to_cam_rows : List (List ℚ) :=
  [[7.49916597e-03, -9.99971248e-01, -8.65110297e-04, -6.71807577e-03],
   [1.18652889e-02, 9.54520517e-04, -9.99910318e-01, -7.33152811e-02],
   [9.99882833e-01, 7.49141178e-03, 1.18719929e-02, -2.78557062e-01],
   [0, 0, 0, 1]]

/-- The row-lists of `configs.R0` exactly as the nested Python list literal
passed to `np.array` in the source. -/
def R0_rows : List (List ℚ) :=
  [[0.99992475, 0.00975976, -0.00734152, 0],
   [-0.0097913, 0.99994262, -0.00430371, 0],
   [0.00729911, 0.0043753, 0.99996319, 0],
   [0, 0, 0, 1]]

/-- The row-lists of `configs.P2` exactly as the nested Python list literal
passed to `np.array` in the source. -/
def P2_rows : List (List ℚ) :=
  [[719.787081, 0, 608.463003, 44.9538775],
   [0, 719.787081, 174.545111, 0.1066855],
   [0, 0, 1, 3.0106472e-03],
   [0, 0, 0, 0]]

/-- `configs.R0_inv = np.linalg.inv(configs.R0)`: the exact matrix inverse,
written via the adjugate so that it is executable. -/
def R0_inv : Matrix (Fin 4) (Fin 4) ℚ :=
  (R0.det)⁻¹ • R0.adjugate

/-- `configs.Tr_velo_to_cam_inv = np.linalg.inv(configs.Tr_velo_to_cam)`:
the exact matrix inverse, written via the adjugate so that it is executable. -/
def Tr_velo_to_cam_inv : Matrix (Fin 4) (Fin 4) ℚ :=
  (Tr_velo_to_cam.det)⁻¹ • Tr_velo_to_cam.adjugate

/-- Append a unit homogeneous component to a 3D point. -/
def toHom (p : Fin 3 → ℚ) : Fin 4 → ℚ := ![p 0, p 1, p 2, 1]

/-- Drop the homogeneous component of a 4-vector. -/
def fromHom (v : Fin 4 → ℚ) : Fin 3 → ℚ := ![v 0, v 1, v 2]

/-- Modelled from the spec: `veloToCam(p)` converts a sensor-frame point to
the camera frame by homogeneous-coordinate multiplication — append 1,
multiply by the `Tr_velo_to_cam` matrix, drop the homogeneous component.
The matrix is from the source; the point operation lives in callers outside
the embedded file. -/
def veloToCam (p : Fin 3 → ℚ) : Fin 3 → ℚ :=
  fromHom (Tr_velo_to_cam.mulVec (toHom p))

/-- Modelled from the spec: `camToVelo(p)`, the inverse of `veloToCam` using
the cached `Tr_velo_to_cam_inv`. -/
def camToVelo (p : Fin 3 → ℚ) : Fin 3 → ℚ :=
  fromHom (Tr_velo_to_cam_inv.mulVec (toHom p))

/-- Modelled from the spec: `rectify(p)` applies the `R0` matrix in
homogeneous coordinates. -/
def rectify (p : Fin 3 → ℚ) : Fin 3 → ℚ :=
  fromHom (R0.mulVec (toHom p))

/-- Modelled from the spec: `unrectify(p)` applies the cached `R0_inv` in
homogeneous coordinates. -/
def unrectify (p : Fin 3 → ℚ) : Fin 3 → ℚ :=
  fromHom (R0_inv.mulVec (toHom p))

/-- `P2` with its zero bottom-right entry replaced by 1.  This auxiliary
matrix is invertible and `P2` is the product of `diagonal ![1,1,1,0]` with
it, which pins down the rank of `P2`. -/
def P2fill : Matrix (Fin 4) (Fin 4) ℚ :=
  !![719.787081, 0, 608.463003, 44.9538775;
     0, 719.787081, 174.545111, 0.1066855;
     0, 0, 1, 3.0106472e-03;
     0, 0, 0, 1]

/-! ## Helper lemmas -/

set_option maxHeartbeats 1000000 in
lemma det_Tr_ne_zero : Tr_velo_to_cam.det ≠ 0 := by
  simp [Tr_velo_to_cam, Matrix.det_succ_row_zero, Fin.sum_univ_succ, Fin.succAbove,
    Fin.lt_def, Fin.castSucc, Fin.castAdd, Fin.castLE, Matrix.vecHead, Matrix.vecTail]
  norm_num

set_option maxHeartbeats 1000000 in
lemma det_R0_ne_zero : R0.det ≠ 0 := by
  simp [R0, Matrix.det_succ_row_zero, Fin.sum_univ_succ, Fin.succAbove,
    Fin.lt_def, Fin.castSucc, Fin.castAdd, Fin.castLE, Matrix.vecHead, Matrix.vecTail]
  norm_num

set_option maxHeartbeats 1000000 in
lemma det_P2fill_ne_zero : P2fill.det ≠ 0 := by
  simp [P2fill, Matrix.det_succ_row_zero, Fin.sum_univ_succ, Fin.succAbove,
    Fin.lt_def, Fin.castSucc, Fin.castAdd, Fin.castLE, Matrix.vecHead, Matrix.vecTail]
  norm_num

lemma P2_eq_diagonal_mul_P2fill : P2 = Matrix.diagonal ![1, 1, 1, 0] * P2fill := by
  ext i j
  fin_cases i <;> fin_cases j <;>
    norm_num [P2, P2fill, Matrix.mul_apply, Fin.sum_univ_succ, Matrix.diagonal,
      Matrix.vecHead, Matrix.vecTail]

lemma Tr_inv_mul : Tr_velo_to_cam_inv * Tr_velo_to_cam = 1 := by
  rw [Tr_velo_to_cam_inv, Matrix.smul_mul, Matrix.adjugate_mul, smul_smul,
    inv_mul_cancel₀ det_Tr_ne_zero, one_smul]

lemma R0_inv_mul : R0_inv * R0 = 1 := by
  rw [R0_inv, Matrix.smul_mul, Matrix.adjugate_mul, smul_smul,
    inv_mul_cancel₀ det_R0_ne_zero, one_smul]

lemma fromHom_toHom (p : Fin 3 → ℚ) : fromHom (toHom p) = p := by
  funext i
  fin_cases i <;> rfl

lemma toHom_fromHom (v : Fin 4 → ℚ) (h : v 3 = 1) : toHom (fromHom v) = v := by
  funext i
  fin_cases i <;> simp [toHom, fromHom, h]

lemma Tr_mulVec_last (p : Fin 3 → ℚ) : (Tr_velo_to_cam.mulVec (toHom p)) 3 = 1 := by
  simp [Tr_velo_to_cam, toHom, Matrix.mulVec, Matrix.dotProduct, Fin.sum_univ_succ]

lemma R0_mulVec_last (p : Fin 3 → ℚ) : (R0.mulVec (toHom p)) 3 = 1 := by
  simp [R0, toHom, Matrix.mulVec, Matrix.dotProduct, Fin.sum_univ_succ]

/-! ## Claim theorems -/

/-- C1 counterexample: the source builds `P2` from a nested list of four rows
of four entries each — sixteen literal values, not a 3x4 matrix of twelve. -/
theorem C1_counterexample :
    ¬ (P2_rows.length = 3 ∧ (P2_rows.map List.length).sum = 12) := by
  decide

/-- C1 (amended): the camera projection matrix `P2` is a 4x4 matrix built
from sixteen literal values whose fourth row is all zeros, while
`Tr_velo_to_cam` and `R0` are each 4x4 matrices built from sixteen literal
values. -/
theorem C1_amended_shape :
    P2_rows.length = 4 ∧ (P2_rows.map List.length).sum = 16 ∧
    P2_rows.getLast? = some [0, 0, 0, 0] ∧
    Tr_velo_to_cam_rows.length = 4 ∧ (Tr_velo_to_cam_rows.map List.length).sum = 16 ∧
    R0_rows.length = 4 ∧ (R0_rows.map List.length).sum = 16 := by
  decide

/-- C2: the derived `DISCRETIZATION` equals `(maxX - minX) / BEV_HEIGHT` for
the configured boundary and grid height; for any boundary and height, the
invariant `maxX > minX` and `height > 0` forces a strictly positive
discretization; and the configured values satisfy the invariant, so the
configured `DISCRETIZATION` is strictly positive. -/
theorem C2_discretization_consistency :
    DISCRETIZATION = (boundary.maxX - boundary.minX) / (BEV_HEIGHT : ℚ) ∧
    (∀ b : Boundary, ∀ n : Nat, b.minX < b.maxX → 0 < n → 0 < (b.maxX - b.minX) / (n : ℚ)) ∧
    boundary.minX < boundary.maxX ∧ 0 < BEV_HEIGHT ∧ 0 < DISCRETIZATION := by
  refine ⟨rfl, ?_, by norm_num [boundary], by norm_num [BEV_HEIGHT],
    by norm_num [DISCRETIZATION, boundary, BEV_HEIGHT]⟩
  intro b n hb hn
  apply div_pos (by linarith)
  exact_mod_cast hn

/-- C2 witness: the general positivity part of `C2_discretization_consistency`
applied to the configured boundary and height. -/
theorem C2_discretization_witness :
    0 < (boundary.maxX - boundary.minX) / ((608 : Nat) : ℚ) :=
  C2_discretization_consistency.2.1 boundary 608 (by norm_num [boundary]) (by norm_num)

/-- C3: for the fixed literal calibration values, `Tr_velo_to_cam` and `R0`
have nonzero determinant (so their exact inverses exist and construction
cannot hit a degenerate transform), and `P2` has rank 3. -/
theorem C3_invertible_and_rank :
    Tr_velo_to_cam.det ≠ 0 ∧ R0.det ≠ 0 ∧ P2.rank = 3 := by
  refine ⟨det_Tr_ne_zero, det_R0_ne_zero, ?_⟩
  rw [P2_eq_diagonal_mul_P2fill, Matrix.rank_mul_eq_left_of_isUnit_det P2fill
    (Matrix.diagonal ![1, 1, 1, 0]) (isUnit_iff_ne_zero.mpr det_P2fill_ne_zero),
    Matrix.rank_diagonal]
  decide

/-- C4 counterexample: the closed X-ranges of the two configured boundary
records are not disjoint — both contain X = 0 (front is [0, 50], back is
[-50, 0], and the spec itself reads a boundary as the closed interval
[minX, maxX]). -/
theorem C4_counterexample :
    ¬ Disjoint (Set.Icc boundary.minX boundary.maxX)
      (Set.Icc boundary_back.minX boundary_back.maxX) := by
  rw [Set.not_disjoint_iff]
  exact ⟨0, by norm_num [boundary, Set.mem_Icc], by norm_num [boundary_back, Set.mem_Icc]⟩

/-- C4 (amended): the front boundary covers X in [0, 50] and the back
boundary covers X in [-50, 0]; the two X-ranges overlap exactly at the shared
endpoint X = 0 and their interiors are disjoint; both regions share the same
Y-range, the same (single) width and height, and the same discretization
value, with `maxX - minX` equal to 50 for both. -/
theorem C4_amended_regions :
    boundary.minX = 0 ∧ boundary.maxX = 50 ∧
    boundary_back.minX = -50 ∧ boundary_back.maxX = 0 ∧
    Set.Icc boundary.minX boundary.maxX ∩ Set.Icc boundary_back.minX boundary_back.maxX
      = {(0 : ℚ)} ∧
    Disjoint (Set.Ioo boundary.minX boundary.maxX)
      (Set.Ioo boundary_back.minX boundary_back.maxX) ∧
    boundary.minY = boundary_back.minY ∧ boundary.maxY = boundary_back.maxY ∧
    (boundary_back.maxX - boundary_back.minX) / (BEV_HEIGHT : ℚ) = DISCRETIZATION ∧
    boundary.maxX - boundary.minX = 50 ∧ boundary_back.maxX - boundary_back.minX = 50 := by
  refine ⟨rfl, rfl, rfl, rfl, ?_, ?_, rfl, rfl, ?_, ?_, ?_⟩
  · rw [Set.Icc_inter_Icc]
    norm_num [boundary, boundary_back]
  · rw [Set.disjoint_left]
    intro x hx hx'
    rw [Set.mem_Ioo] at hx hx'
    simp only [boundary, boundary_back] at hx hx'
    linarith [hx.1, hx'.2]
  · norm_num [DISCRETIZATION, boundary, boundary_back, BEV_HEIGHT]
  · norm_num [boundary]
  · norm_num [boundary_back]

/-- C5: for every 3D point `p`, applying the LiDAR-to-camera transform and
then its cached inverse returns `p` exactly, and applying rectification and
then its cached inverse returns `p` exactly; the cached `Tr_velo_to_cam_inv`
and `R0_inv` are the exact matrix inverses of `Tr_velo_to_cam` and `R0`. -/
theorem C5_roundtrip (p : Fin 3 → ℚ) :
    camToVelo (veloToCam p) = p ∧ unrectify (rectify p) = p ∧
    Tr_velo_to_cam_inv = Tr_velo_to_cam⁻¹ ∧ R0_inv = R0⁻¹ := by
  refine ⟨?_, ?_, ?_, ?_⟩
  · rw [camToVelo, veloToCam, toHom_fromHom _ (Tr_mulVec_last p), Matrix.mulVec_mulVec,
      Tr_inv_mul, Matrix.one_mulVec, fromHom_toHom]
  · rw [unrectify, rectify, toHom_fromHom _ (R0_mulVec_last p), Matrix.mulVec_mulVec,
      R0_inv_mul, Matrix.one_mulVec, fromHom_toHom]
  · rw [Tr_velo_to_cam_inv, Matrix.inv_def, Ring.inverse_eq_inv]
  · rw [R0_inv, Matrix.inv_def, Ring.inverse_eq_inv]

/-- C6: the alias "Van" resolves to the same class ID as "Car" (namely 0)
and "Person_sitting" to the same ID as "Pedestrian" (namely 1), and color
lookup through those IDs yields the same color for the alias as for the
canonical name. -/
theorem C6_alias_consistency :
    idForName "Van" = idForName "Car" ∧ idForName "Car" = some 0 ∧
    idForName "Person_sitting" = idForName "Pedestrian" ∧
    idForName "Pedestrian" = some 1 ∧
    colorForName "Van" = colorForName "Car" ∧
    colorForName "Person_sitting" = colorForName "Pedestrian" := by
  decide

/-- C7: the color list has exactly as many entries as the canonical
class-name list, and every value of the alias-to-ID mapping is an ID below
the number of canonical class names. -/
theorem C7_registry_invariant :
    colors.length = class_list.length ∧
    ∀ pr ∈ CLASS_NAME_TO_ID, pr.2 < class_list.length := by
  decide

/-- C8: the fourth row and the fourth column of the rectification matrix
`R0` each equal (0, 0, 0, 1), i.e. the 3x3 block is padded with identity. -/
theorem C8_rect_row_col :
    (∀ j : Fin 4, R0 3 j = ![(0 : ℚ), 0, 0, 1] j) ∧
    (∀ i : Fin 4, R0 i 3 = ![(0 : ℚ), 0, 0, 1] i) := by
  decide

/-- C9: the Y-axis cell size `(maxY - minY) / BEV_WIDTH` equals the X-axis
cell size `(maxX - minX) / BEV_HEIGHT`; both equal the single configured
`DISCRETIZATION` value 50/608, so grid cells are square. -/
theorem C9_square_cells :
    (boundary.maxY - boundary.minY) / (BEV_WIDTH : ℚ)
        = (boundary.maxX - boundary.minX) / (BEV_HEIGHT : ℚ) ∧
    (boundary.maxY - boundary.minY) / (BEV_WIDTH : ℚ) = DISCRETIZATION ∧
    DISCRETIZATION = 50 / 608 := by
  norm_num [DISCRETIZATION, boundary, BEV_WIDTH, BEV_HEIGHT]

/-- C10: every canonical class name maps to its own index: looking the name
at index i of `class_list` up through the alias mapping yields i. -/
theorem C10_canonical_index :
    ∀ i : Fin class_list.length, idForName (class_list.get i) = some i.val := by
  decide

end ComplexYOLO
